import Mathlib

/-!
Verification of the gesture-controlled virtual-apple system.

The core components (utils.py, gesture_detector.py, state_machine.py,
apple_controller.py) are shallowly embedded below.  Python floats are
modelled as exact rationals (ℚ): every arithmetic operation the core
performs (lerp, clamp, +, -, *, max, min, comparisons) is rational, so the
embedding is exact except for `math.sqrt` in `distance`, which is bridged
to ℝ via `Real.sqrt` (the code only compares `distance` against a positive
constant, and `sqrt s < c ↔ s < c²` for `c > 0`, so the executable
embedding uses the squared comparison `distSq < c²`).
-/

namespace GestureSys

/-- One MediaPipe landmark (normalised x, y and relative depth z),
as read by `gesture_detector._fingers_extended` and `hand_tracker`. -/
structure Landmark where
  x : ℚ
  y : ℚ
  z : ℚ
deriving DecidableEq

instance : Inhabited Landmark := ⟨⟨0, 0, 0⟩⟩

/-- `hand_tracker.HandData`: the lightweight per-frame container. -/
structure HandData where
  wrist : ℚ × ℚ
  palm_center : ℚ × ℚ
  thumb_tip : ℚ × ℚ
  index_tip : ℚ × ℚ
  middle_tip : ℚ × ℚ
  ring_tip : ℚ × ℚ
  pinky_tip : ℚ × ℚ
  palm_width : ℚ
  avg_z : ℚ
  all_landmarks : List Landmark
deriving DecidableEq

/-! Constants from `utils.py`. -/

def MIN_SCALE : ℚ := 0.3

def MAX_SCALE : ℚ := 2.5

def DEFAULT_SCALE : ℚ := 0.6

def GRAB_THRESHOLD : ℚ := 0.06

def PULL_Z_DELTA_THRESHOLD : ℚ := -0.002

def PULL_W_DELTA_THRESHOLD : ℚ := 0.002

def PULL_FRAMES_REQUIRED : ℕ := 3

def GESTURE_HYSTERESIS : ℕ := 2

def POSITION_LERP : ℚ := 0.15

def SCALE_LERP : ℚ := 0.10

def PULL_SCALE_STEP : ℚ := 0.04

def DEFAULT_APPLE_X : ℚ := 0.5

def DEFAULT_APPLE_Y : ℚ := 0.5

def DEFAULT_APPLE_Z : ℚ := 1.0

def IDLE_TIMEOUT_FRAMES : ℕ := 15

/-- `utils.lerp`: `a + (b - a) * t`. -/
def lerp (a b t : ℚ) : ℚ := a + (b - a) * t

/-- `utils.clamp`: `max(lo, min(hi, val))`. -/
def clamp (val lo hi : ℚ) : ℚ := max lo (min hi val)

/-- Squared Euclidean distance between two 2-D points; the executable
counterpart of `utils.distance` (which returns `math.sqrt` of this). -/
def distSq (p1 p2 : ℚ × ℚ) : ℚ := (p1.1 - p2.1) ^ 2 + (p1.2 - p2.2) ^ 2

/-- `utils.distance`: Euclidean distance, in ℝ (because of `math.sqrt`). -/
noncomputable def distance (p1 p2 : ℚ × ℚ) : ℝ := Real.sqrt ((distSq p1 p2 : ℚ) : ℝ)

/-- Push onto a `collections.deque(maxlen=n)`: append and evict from the
front when over capacity. -/
def dequePush {α : Type} (maxlen : ℕ) (l : List α) (v : α) : List α :=
  let b := l ++ [v]
  if maxlen < b.length then b.drop (b.length - maxlen) else b

/-- `utils.MovingAverage`: fixed-capacity FIFO of samples.  Only the
buffer (`values`) matters for the gesture logic; `update` returns the
running mean in Python but the detector discards that return value. -/
structure MovingAverage where
  window : ℕ
  buf : List ℚ
deriving DecidableEq

/-- `MovingAverage.update`: push a value into the bounded buffer. -/
def MovingAverage.update (m : MovingAverage) (v : ℚ) : MovingAverage :=
  { m with buf := dequePush m.window m.buf v }

/-- `MovingAverage.values`: buffer contents, oldest → newest. -/
def MovingAverage.values (m : MovingAverage) : List ℚ := m.buf

/-! `gesture_detector.GestureDetector`. -/

/-- The detector's mutable state: rolling `HandData` buffer (maxlen 12),
two `MovingAverage(window=6)` smoothers, and the hysteresis pair. -/
structure GestureDetector where
  buffer : List HandData
  z_smoother : MovingAverage
  w_smoother : MovingAverage
  last_gesture : String
  stable_count : ℕ
deriving DecidableEq

/-- `GestureDetector.__init__`. -/
def GestureDetector.init : GestureDetector :=
  { buffer := [], z_smoother := ⟨6, []⟩, w_smoother := ⟨6, []⟩,
    last_gesture := "none", stable_count := 0 }

/-- `GestureDetector._is_grab`: thumb tip and index tip pinched together.
`distance < GRAB_THRESHOLD` is embedded as `distSq < GRAB_THRESHOLD²`
(equivalent since both sides of the original comparison are nonnegative;
see `distance_lt_iff_distSq_lt`). -/
def is_grab (hd : HandData) : Bool :=
  decide (distSq hd.thumb_tip hd.index_tip < GRAB_THRESHOLD ^ 2)

/-- `GestureDetector._fingers_extended`: each of the four fingertips
(8, 12, 16, 20) is strictly above its MCP joint (5, 9, 13, 17). -/
def fingers_extended (hd : HandData) : Bool :=
  [(8, 5), (12, 9), (16, 13), (20, 17)].all fun p =>
    decide ((hd.all_landmarks.getD p.1 default).y < (hd.all_landmarks.getD p.2 default).y)

/-- Consecutive-frame deltas `l[i+1] - l[i]`, as computed by
`GestureDetector._is_pull`. -/
def deltas (l : List ℚ) : List ℚ := List.zipWith (fun a b => b - a) l l.tail

/-- The Python slice `l[-(n):]`: the last `n` elements. -/
def lastN (n : ℕ) (l : List ℚ) : List ℚ := l.drop (l.length - n)

/-- `GestureDetector._is_pull`: consistently decreasing smoothed depth OR
consistently increasing smoothed palm width over the last
`PULL_FRAMES_REQUIRED + 1` buffered samples. -/
def is_pull (z_vals w_vals : List ℚ) : Bool :=
  if z_vals.length < PULL_FRAMES_REQUIRED + 1 then false
  else
    let z_recent := lastN (PULL_FRAMES_REQUIRED + 1) z_vals
    let w_recent := lastN (PULL_FRAMES_REQUIRED + 1) w_vals
    let z_deltas := deltas z_recent
    let w_deltas := deltas w_recent
    (z_deltas.all fun d => decide (d < PULL_Z_DELTA_THRESHOLD)) ||
      (w_deltas.all fun d => decide (PULL_W_DELTA_THRESHOLD < d))

/-- `GestureDetector._classify`: raw (un-hysteresised) classification,
using the smoother buffers as they stand after this frame's update. -/
def classify (hd : HandData) (z_vals w_vals : List ℚ) : String :=
  if is_grab hd then "grab"
  else if !fingers_extended hd then "none"
  else if is_pull z_vals w_vals then "pull"
  else "open_hand"

/-- `GestureDetector.detect`: push the frame into the buffers, classify,
apply hysteresis, and return (reported label, new detector state). -/
def GestureDetector.detect (s : GestureDetector) (hd : HandData) :
    String × GestureDetector :=
  let buffer := dequePush 12 s.buffer hd
  let zs := s.z_smoother.update hd.avg_z
  let ws := s.w_smoother.update hd.palm_width
  let raw := classify hd zs.values ws.values
  let lastg := if raw = s.last_gesture then s.last_gesture else raw
  let cnt := if raw = s.last_gesture then s.stable_count + 1 else 1
  let reported :=
    if GESTURE_HYSTERESIS ≤ cnt then raw
    else if 1 < cnt then lastg
    else "none"
  (reported,
    { buffer := buffer, z_smoother := zs, w_smoother := ws,
      last_gesture := lastg, stable_count := cnt })

/-- The raw classification `detect` computes for frame `hd` arriving in
detector state `s` (the smoothers having been updated with the frame
first, exactly as in `detect`). -/
def rawOf (s : GestureDetector) (hd : HandData) : String :=
  classify hd (s.z_smoother.update hd.avg_z).values
    (s.w_smoother.update hd.palm_width).values

/-! `state_machine.py`. -/

/-- `state_machine.AppleState`. -/
inductive AppleState where
  | IDLE
  | RESPONDING
  | PULLING
  | GRABBED
  | FOLLOWING
deriving DecidableEq, Fintype

/-- `state_machine._TRANSITIONS`: current state ↦ legal target states. -/
def TRANSITIONS : AppleState → List AppleState
  | .IDLE => [.RESPONDING]
  | .RESPONDING => [.PULLING, .IDLE]
  | .PULLING => [.GRABBED, .IDLE]
  | .GRABBED => [.FOLLOWING, .IDLE]
  | .FOLLOWING => [.IDLE]

/-- `AppleStateMachine.transition`: returns (applied?, resulting state).
No-op success when the target equals the current state; otherwise apply
iff the target is in the allowed set, else block and stay put. -/
def transition (s new_state : AppleState) : Bool × AppleState :=
  if new_state = s then (true, s)
  else if new_state ∈ TRANSITIONS s then (true, new_state)
  else (false, s)

/-- `AppleStateMachine.reset`: force-reset to IDLE. -/
def fsmReset (_ : AppleState) : AppleState := AppleState.IDLE

/-- `AppleStateMachine.__init__`: initial state. -/
def initState : AppleState := AppleState.IDLE

/-- A call on the state machine: `transition(t)` or `reset()`. -/
inductive FsmOp where
  | trans (t : AppleState)
  | reset
deriving DecidableEq

/-- Run a sequence of state-machine calls from a state. -/
def runFsm (s : AppleState) : List FsmOp → AppleState
  | [] => s
  | FsmOp.trans t :: ops => runFsm (transition s t).2 ops
  | FsmOp.reset :: ops => runFsm (fsmReset s) ops

/-! `apple_controller.py`. -/

/-- `apple_controller.AppleController`: FSM state, apple properties, and
the no-hand frame counter. -/
structure AppleController where
  fsm : AppleState
  x : ℚ
  y : ℚ
  z : ℚ
  scale : ℚ
  no_hand_frames : ℕ
deriving DecidableEq

/-- `AppleController.__init__`. -/
def AppleController.init : AppleController :=
  { fsm := initState, x := DEFAULT_APPLE_X, y := DEFAULT_APPLE_Y,
    z := DEFAULT_APPLE_Z, scale := DEFAULT_SCALE, no_hand_frames := 0 }

/-- `AppleController._update_properties`: per-state property adjustment,
keyed on the state *after* this frame's transition logic. -/
def update_properties (c : AppleController) (_gesture : String) (hd : HandData) :
    AppleController :=
  match c.fsm with
  | .RESPONDING =>
      { c with scale := lerp c.scale (DEFAULT_SCALE * 1.1) SCALE_LERP }
  | .PULLING =>
      { c with z := max 0 (c.z - 0.01),
               scale := clamp (c.scale + PULL_SCALE_STEP) MIN_SCALE MAX_SCALE }
  | .FOLLOWING =>
      { c with x := lerp c.x hd.palm_center.1 1.0,
               y := lerp c.y hd.palm_center.2 1.0 }
  | .IDLE =>
      { c with x := lerp c.x DEFAULT_APPLE_X (POSITION_LERP * 0.5),
               y := lerp c.y DEFAULT_APPLE_Y (POSITION_LERP * 0.5),
               scale := lerp c.scale DEFAULT_SCALE SCALE_LERP,
               z := lerp c.z DEFAULT_APPLE_Z SCALE_LERP }
  | .GRABBED => c

/-- `AppleController.update`: per-frame entry point.  On hand loss,
count frames and force-reset at the timeout without touching properties;
otherwise zero the counter, run the gesture-driven transition logic, then
update the properties from the resulting state.  (In the PULLING/grab
branch the Python guard `if hand_data:` is always true — `hd` is a
dataclass instance, hence truthy — so the snap is unconditional on the
transition succeeding.) -/
def AppleController.update (c : AppleController) (gesture : String)
    (hand_data : Option HandData) : AppleController :=
  match hand_data with
  | none =>
      let c1 := { c with no_hand_frames := c.no_hand_frames + 1 }
      if IDLE_TIMEOUT_FRAMES ≤ c1.no_hand_frames then
        { c1 with fsm := fsmReset c1.fsm }
      else c1
  | some hd =>
      let c1 := { c with no_hand_frames := 0 }
      let c2 :=
        match c1.fsm with
        | .IDLE =>
            if gesture = "open_hand" then
              { c1 with fsm := (transition c1.fsm .RESPONDING).2 }
            else c1
        | .RESPONDING =>
            if gesture = "pull" then
              { c1 with fsm := (transition c1.fsm .PULLING).2 }
            else if gesture = "none" then
              { c1 with fsm := (transition c1.fsm .IDLE).2 }
            else c1
        | .PULLING =>
            if gesture = "grab" then
              let t := transition c1.fsm .GRABBED
              let c' :=
                if t.1 then
                  { c1 with fsm := t.2, x := hd.palm_center.1, y := hd.palm_center.2 }
                else { c1 with fsm := t.2 }
              { c' with fsm := (transition c'.fsm .FOLLOWING).2 }
            else if gesture = "pull" ∨ gesture = "open_hand" then c1
            else { c1 with fsm := (transition c1.fsm .IDLE).2 }
        | .GRABBED =>
            { c1 with fsm := (transition c1.fsm .FOLLOWING).2 }
        | .FOLLOWING =>
            if gesture = "grab" then c1
            else { c1 with fsm := (transition c1.fsm .IDLE).2 }
      update_properties c2 gesture hd

/-- Run a sequence of per-frame inputs through the controller. -/
def runController (c : AppleController) :
    List (String × Option HandData) → AppleController
  | [] => c
  | (g, h) :: rest => runController (c.update g h) rest

/-- Iterate `update` with an absent hand sample `n` times. -/
def iterAbsent (g : String) (c : AppleController) : ℕ → AppleController
  | 0 => c
  | n + 1 => (iterAbsent g c n).update g none

/-! Theorems. -/

/-- `detect`, written out componentwise. -/
lemma detect_eq (s : GestureDetector) (hd : HandData) :
    s.detect hd =
      (if GESTURE_HYSTERESIS ≤
            (if rawOf s hd = s.last_gesture then s.stable_count + 1 else 1) then
          rawOf s hd
        else if 1 < (if rawOf s hd = s.last_gesture then s.stable_count + 1 else 1) then
          (if rawOf s hd = s.last_gesture then s.last_gesture else rawOf s hd)
        else "none",
       { buffer := dequePush 12 s.buffer hd,
         z_smoother := s.z_smoother.update hd.avg_z,
         w_smoother := s.w_smoother.update hd.palm_width,
         last_gesture := if rawOf s hd = s.last_gesture then s.last_gesture else rawOf s hd,
         stable_count := if rawOf s hd = s.last_gesture then s.stable_count + 1 else 1 }) :=
  rfl

/-- C1: `detect`'s hysteresis: an unchanged raw label increments the
stability counter (keeping the remembered label), a changed raw label
resets the counter to 1 and re-seeds the remembered label; the reported
label is the raw label once the counter reaches `GESTURE_HYSTERESIS`, the
previous label while `1 < counter < GESTURE_HYSTERESIS`, and `"none"`
when the counter equals 1 — so a single-frame raw spike (raw label
differing from the remembered one) is reported as `"none"`. -/
theorem C1_hysteresis (s : GestureDetector) (hd : HandData) :
    (rawOf s hd = s.last_gesture →
      (s.detect hd).2.stable_count = s.stable_count + 1 ∧
      (s.detect hd).2.last_gesture = s.last_gesture) ∧
    (rawOf s hd ≠ s.last_gesture →
      (s.detect hd).2.stable_count = 1 ∧
      (s.detect hd).2.last_gesture = rawOf s hd) ∧
    (GESTURE_HYSTERESIS ≤ (s.detect hd).2.stable_count →
      (s.detect hd).1 = rawOf s hd) ∧
    (1 < (s.detect hd).2.stable_count →
      (s.detect hd).2.stable_count < GESTURE_HYSTERESIS →
      (s.detect hd).1 = s.last_gesture) ∧
    ((s.detect hd).2.stable_count = 1 → (s.detect hd).1 = "none") ∧
    (rawOf s hd ≠ s.last_gesture → (s.detect hd).1 = "none") := by
  rw [detect_eq]
  by_cases h : rawOf s hd = s.last_gesture <;>
    simp [h, GESTURE_HYSTERESIS] <;>
    split_ifs <;>
    simp_all <;>
    omega

/-- C10: with the shipped `GESTURE_HYSTERESIS = 2`, `detect` is a
one-frame debounce on every state satisfying the reachability invariant
(`stable_count ≥ 1`, or the freshly initialised `"none"`/0 state): the
reported label is the raw label when it matches the previous raw label and
`"none"` otherwise; the mid-transition branch (counter strictly between 1
and the threshold) is never taken, and every `detect` call re-establishes
the invariant. -/
theorem C10_debounce (s : GestureDetector) (hd : HandData)
    (hs : 1 ≤ s.stable_count ∨ s.last_gesture = "none") :
    ((s.detect hd).1 =
      if rawOf s hd = s.last_gesture then rawOf s hd else "none") ∧
    ¬(1 < (s.detect hd).2.stable_count ∧
      (s.detect hd).2.stable_count < GESTURE_HYSTERESIS) ∧
    1 ≤ (s.detect hd).2.stable_count := by
  rw [detect_eq]
  by_cases h : rawOf s hd = s.last_gesture
  · simp [h, GESTURE_HYSTERESIS]
    refine ⟨fun h0 => ?_, fun _ => by omega⟩
    rcases hs with h1 | h1
    · omega
    · rw [h1]
  · simp [h, GESTURE_HYSTERESIS]

/-- C2: `transition` is a no-op success on the current state; otherwise
it succeeds (moving to the target) exactly when the target is in the
allowed set of the current state, and on failure leaves the state
unchanged; from IDLE, FOLLOWING/PULLING/GRABBED are blocked while
RESPONDING succeeds. -/
theorem C2_transition_spec :
    (∀ s t : AppleState,
      (t = s → transition s t = (true, s)) ∧
      (t ≠ s →
        (((transition s t).1 = true) ↔ t ∈ TRANSITIONS s) ∧
        ((transition s t).1 = true → (transition s t).2 = t) ∧
        ((transition s t).1 = false → (transition s t).2 = s))) ∧
    transition .IDLE .FOLLOWING = (false, .IDLE) ∧
    transition .IDLE .PULLING = (false, .IDLE) ∧
    transition .IDLE .GRABBED = (false, .IDLE) ∧
    transition .IDLE .RESPONDING = (true, .RESPONDING) := by
  decide

/-- C7: the initial state is IDLE; after any sequence of `transition` and
`reset` calls the state is one of the five enumerated states; every state
change `transition` performs follows an edge of the static table; and
`reset` yields IDLE from every state. -/
theorem C7_fsm_invariants :
    initState = AppleState.IDLE ∧
    (∀ (s : AppleState) (ops : List FsmOp),
      runFsm s ops ∈
        [AppleState.IDLE, AppleState.RESPONDING, AppleState.PULLING,
         AppleState.GRABBED, AppleState.FOLLOWING]) ∧
    (∀ s t : AppleState, (transition s t).2 ≠ s →
      t ∈ TRANSITIONS s ∧ (transition s t).2 = t) ∧
    (∀ s : AppleState, fsmReset s = AppleState.IDLE) := by
  refine ⟨rfl, ?_, by decide, fun s => rfl⟩
  intro s ops
  cases runFsm s ops <;> decide

/-- `_update_properties` never touches the FSM state or the counter. -/
lemma update_properties_fsm (c : AppleController) (g : String) (hd : HandData) :
    (update_properties c g hd).fsm = c.fsm ∧
    (update_properties c g hd).no_hand_frames = c.no_hand_frames := by
  rcases c with ⟨f, x, y, z, sc, n⟩
  cases f <;> exact ⟨rfl, rfl⟩

/-- `_update_properties`'s effect on depth, keyed on the state. -/
lemma update_properties_z (c : AppleController) (g : String) (hd : HandData) :
    (update_properties c g hd).z =
      match c.fsm with
      | .PULLING => max 0 (c.z - 0.01)
      | .IDLE => lerp c.z DEFAULT_APPLE_Z SCALE_LERP
      | _ => c.z := by
  rcases c with ⟨f, x, y, z, sc, n⟩
  cases f <;> rfl

/-- `_update_properties`'s effect on scale, keyed on the state. -/
lemma update_properties_scale (c : AppleController) (g : String) (hd : HandData) :
    (update_properties c g hd).scale =
      match c.fsm with
      | .RESPONDING => lerp c.scale (DEFAULT_SCALE * 1.1) SCALE_LERP
      | .PULLING => clamp (c.scale + PULL_SCALE_STEP) MIN_SCALE MAX_SCALE
      | .IDLE => lerp c.scale DEFAULT_SCALE SCALE_LERP
      | _ => c.scale := by
  rcases c with ⟨f, x, y, z, sc, n⟩
  cases f <;> rfl

/-- `update` with a present hand sample factors as the transition phase
(which zeroes the counter, moves the FSM, and at most snaps x/y) followed
by `_update_properties`. -/
lemma update_some_exists (c : AppleController) (g : String) (hd : HandData) :
    ∃ c2 : AppleController, c.update g (some hd) = update_properties c2 g hd ∧
      c2.z = c.z ∧ c2.scale = c.scale ∧ c2.no_hand_frames = 0 := by
  rcases c with ⟨f, x, y, z, sc, n⟩
  cases f <;> simp only [AppleController.update] <;>
    first
      | exact ⟨_, rfl, rfl, rfl, rfl⟩
      | (split_ifs <;> exact ⟨_, rfl, rfl, rfl, rfl⟩)

/-- C3: from PULLING with gesture `"grab"` and a hand present, one
`update` call lands in FOLLOWING (GRABBED is passed through within the
call) and the position snaps exactly to the sample's palm centre. -/
theorem C3_grab_snap (c : AppleController) (hd : HandData)
    (h : c.fsm = AppleState.PULLING) :
    (c.update "grab" (some hd)).fsm = AppleState.FOLLOWING ∧
    (c.update "grab" (some hd)).x = hd.palm_center.1 ∧
    (c.update "grab" (some hd)).y = hd.palm_center.2 := by
  rcases c with ⟨f, x, y, z, sc, n⟩
  cases f <;> simp_all
  simp [AppleController.update, transition, TRANSITIONS, update_properties, lerp]

/-- Concrete hand sample used by the witnesses. -/
def sampleHand : HandData :=
  { wrist := (0, 0), palm_center := (0.3, 0.7), thumb_tip := (0, 0),
    index_tip := (0.5, 0), middle_tip := (0, 0), ring_tip := (0, 0),
    pinky_tip := (0, 0), palm_width := 0.1, avg_z := 0.5, all_landmarks := [] }

/-- Witness for C3 at a concrete PULLING controller and hand sample. -/
theorem C3_grab_snap_witness :
    ({ AppleController.init with fsm := .PULLING } : AppleController).fsm =
        AppleState.PULLING ∧
    (({ AppleController.init with fsm := .PULLING } : AppleController).update
        "grab" (some sampleHand)).fsm = AppleState.FOLLOWING ∧
    (({ AppleController.init with fsm := .PULLING } : AppleController).update
        "grab" (some sampleHand)).x = sampleHand.palm_center.1 ∧
    (({ AppleController.init with fsm := .PULLING } : AppleController).update
        "grab" (some sampleHand)).y = sampleHand.palm_center.2 :=
  ⟨rfl, C3_grab_snap { AppleController.init with fsm := .PULLING } sampleHand rfl⟩

/-- `update` with an absent hand, written out. -/
lemma update_none_eq (c : AppleController) (g : String) :
    c.update g none =
      if IDLE_TIMEOUT_FRAMES ≤ c.no_hand_frames + 1 then
        { c with no_hand_frames := c.no_hand_frames + 1, fsm := AppleState.IDLE }
      else { c with no_hand_frames := c.no_hand_frames + 1 } := by
  simp only [AppleController.update]
  split_ifs <;> rfl

/-- Below the timeout, absent-hand frames only advance the counter. -/
lemma iterAbsent_lt (g : String) (c : AppleController) (n : ℕ)
    (h : c.no_hand_frames + n < IDLE_TIMEOUT_FRAMES) :
    iterAbsent g c n = { c with no_hand_frames := c.no_hand_frames + n } := by
  induction n with
  | zero => simp [iterAbsent]
  | succ k ih =>
      have hk : c.no_hand_frames + k < IDLE_TIMEOUT_FRAMES := by omega
      rw [iterAbsent, ih hk, update_none_eq]
      rw [if_neg (by simp only [IDLE_TIMEOUT_FRAMES] at h ⊢; omega)]
      rfl

/-- C5: each absent-hand `update` bumps the no-hand counter and leaves
all properties untouched; starting from counter 0, fewer than
`IDLE_TIMEOUT_FRAMES` consecutive absent frames leave the whole
controller unchanged except the counter, the `IDLE_TIMEOUT_FRAMES`-th
absent frame forces the state to IDLE with the properties still
untouched, and the counter drops back to 0 on the next present-hand
`update`. -/
theorem C5_hand_loss (c : AppleController) (g : String) :
    ((c.update g none).no_hand_frames = c.no_hand_frames + 1 ∧
     (c.update g none).x = c.x ∧ (c.update g none).y = c.y ∧
     (c.update g none).z = c.z ∧ (c.update g none).scale = c.scale) ∧
    (∀ k : ℕ, c.no_hand_frames = 0 → k < IDLE_TIMEOUT_FRAMES →
      iterAbsent g c k = { c with no_hand_frames := k }) ∧
    (c.no_hand_frames = 0 →
      (iterAbsent g c IDLE_TIMEOUT_FRAMES).fsm = AppleState.IDLE ∧
      (iterAbsent g c IDLE_TIMEOUT_FRAMES).x = c.x ∧
      (iterAbsent g c IDLE_TIMEOUT_FRAMES).y = c.y ∧
      (iterAbsent g c IDLE_TIMEOUT_FRAMES).z = c.z ∧
      (iterAbsent g c IDLE_TIMEOUT_FRAMES).scale = c.scale) ∧
    (∀ hd : HandData, (c.update g (some hd)).no_hand_frames = 0) := by
  refine ⟨?_, ?_, ?_, ?_⟩
  · rw [update_none_eq]
    split_ifs <;> exact ⟨rfl, rfl, rfl, rfl, rfl⟩
  · intro k h0 hk
    rw [iterAbsent_lt g c k (by omega)]
    simp [h0]
  · intro h0
    have h14 : iterAbsent g c (IDLE_TIMEOUT_FRAMES - 1) =
        { c with no_hand_frames := IDLE_TIMEOUT_FRAMES - 1 } := by
      rw [iterAbsent_lt g c _ (by simp only [IDLE_TIMEOUT_FRAMES] at h0 ⊢; omega)]
      simp [h0]
    have hstep : iterAbsent g c IDLE_TIMEOUT_FRAMES =
        (iterAbsent g c (IDLE_TIMEOUT_FRAMES - 1)).update g none := rfl
    rw [hstep, h14, update_none_eq]
    rw [if_pos (by simp only [IDLE_TIMEOUT_FRAMES]; omega)]
    exact ⟨rfl, rfl, rfl, rfl, rfl⟩
  · intro hd
    obtain ⟨c2, heq, _, _, hn⟩ := update_some_exists c g hd
    rw [heq, (update_properties_fsm c2 g hd).2, hn]

/-- `update` in IDLE with gesture `"none"` and a present hand: no
transition fires and the Idle property decay applies. -/
lemma update_idle_none (c : AppleController) (hd : HandData)
    (h : c.fsm = AppleState.IDLE) :
    c.update "none" (some hd) =
      { c with no_hand_frames := 0,
               x := lerp c.x DEFAULT_APPLE_X (POSITION_LERP * 0.5),
               y := lerp c.y DEFAULT_APPLE_Y (POSITION_LERP * 0.5),
               scale := lerp c.scale DEFAULT_SCALE SCALE_LERP,
               z := lerp c.z DEFAULT_APPLE_Z SCALE_LERP } := by
  rcases c with ⟨f, x, y, z, sc, n⟩
  cases f <;> simp_all [AppleController.update, update_properties]

/-- Concrete controller for the C6 counterexample: IDLE with the apple
half-way pulled in (z = 0.5). -/
def c6cex : AppleController := { AppleController.init with z := 0.5 }

/-- C6 counterexample: an `update` whose resulting state is IDLE mutates
the depth (the Idle branch lerps z back toward `DEFAULT_APPLE_Z`),
refuting "in every other resulting state that call leaves z unchanged". -/
theorem C6_counterexample :
    (c6cex.update "none" (some sampleHand)).fsm = AppleState.IDLE ∧
    (c6cex.update "none" (some sampleHand)).z ≠ c6cex.z := by
  rw [update_idle_none c6cex sampleHand rfl]
  refine ⟨rfl, ?_⟩
  show lerp c6cex.z DEFAULT_APPLE_Z SCALE_LERP ≠ c6cex.z
  norm_num [lerp, c6cex, AppleController.init, DEFAULT_APPLE_Z, SCALE_LERP]

/-- C6 (amended): depth is mutated only when the resulting state is
PULLING (fixed decrement, floored at 0) or IDLE (lerp back toward the
default depth); in resulting states RESPONDING, FOLLOWING and GRABBED a
present-hand `update` leaves z unchanged. -/
theorem C6_z_mutation (c : AppleController) (g : String) (hd : HandData) :
    ((c.update g (some hd)).fsm = AppleState.RESPONDING ∨
     (c.update g (some hd)).fsm = AppleState.FOLLOWING ∨
     (c.update g (some hd)).fsm = AppleState.GRABBED →
      (c.update g (some hd)).z = c.z) ∧
    ((c.update g (some hd)).fsm = AppleState.PULLING →
      (c.update g (some hd)).z = max 0 (c.z - 0.01)) ∧
    ((c.update g (some hd)).fsm = AppleState.IDLE →
      (c.update g (some hd)).z = lerp c.z DEFAULT_APPLE_Z SCALE_LERP) := by
  obtain ⟨c2, heq, hz, _, _⟩ := update_some_exists c g hd
  have hf := (update_properties_fsm c2 g hd).1
  have hzz := update_properties_z c2 g hd
  rw [hz] at hzz
  rw [heq, hf, hzz]
  cases c2.fsm <;> simp

/-- `lerp` with a factor in [0, 1] stays inside an interval containing
both endpoints. -/
lemma lerp_mem (a b t lo hi : ℚ) (ha1 : lo ≤ a) (ha2 : a ≤ hi)
    (hb1 : lo ≤ b) (hb2 : b ≤ hi) (ht0 : 0 ≤ t) (ht1 : t ≤ 1) :
    lo ≤ lerp a b t ∧ lerp a b t ≤ hi := by
  unfold lerp
  constructor <;> nlinarith

/-- `clamp` lands in [lo, hi] whenever lo ≤ hi. -/
lemma clamp_mem (v lo hi : ℚ) (h : lo ≤ hi) :
    lo ≤ clamp v lo hi ∧ clamp v lo hi ≤ hi :=
  ⟨le_max_left _ _, max_le h (min_le_left _ _)⟩

/-- The documented bounds on the continuous properties. -/
def goodProps (c : AppleController) : Prop :=
  0 ≤ c.z ∧ MIN_SCALE ≤ c.scale ∧ c.scale ≤ MAX_SCALE

/-- One `update` call preserves the property bounds. -/
lemma goodProps_update (c : AppleController) (g : String)
    (h : Option HandData) (hc : goodProps c) : goodProps (c.update g h) := by
  obtain ⟨hz, hs1, hs2⟩ := hc
  match h with
  | none =>
      rw [update_none_eq]
      split_ifs <;> exact ⟨hz, hs1, hs2⟩
  | some hd =>
      obtain ⟨c2, heq, hz2, hsc2, _⟩ := update_some_exists c g hd
      rw [heq]
      have hzz := update_properties_z c2 g hd
      have hss := update_properties_scale c2 g hd
      rw [hz2] at hzz
      rw [hsc2] at hss
      unfold goodProps
      rw [hzz, hss]
      cases c2.fsm
      case IDLE =>
          refine ⟨?_, ?_⟩
          · show 0 ≤ lerp c.z DEFAULT_APPLE_Z SCALE_LERP
            norm_num [lerp, DEFAULT_APPLE_Z, SCALE_LERP]
            nlinarith
          · show MIN_SCALE ≤ lerp c.scale DEFAULT_SCALE SCALE_LERP ∧
              lerp c.scale DEFAULT_SCALE SCALE_LERP ≤ MAX_SCALE
            exact lerp_mem _ _ _ _ _ hs1 hs2
              (by norm_num [MIN_SCALE, DEFAULT_SCALE])
              (by norm_num [MAX_SCALE, DEFAULT_SCALE])
              (by norm_num [SCALE_LERP]) (by norm_num [SCALE_LERP])
      case RESPONDING =>
          refine ⟨hz, ?_⟩
          show MIN_SCALE ≤ lerp c.scale (DEFAULT_SCALE * 1.1) SCALE_LERP ∧
            lerp c.scale (DEFAULT_SCALE * 1.1) SCALE_LERP ≤ MAX_SCALE
          exact lerp_mem _ _ _ _ _ hs1 hs2
            (by norm_num [MIN_SCALE, DEFAULT_SCALE])
            (by norm_num [MAX_SCALE, DEFAULT_SCALE])
            (by norm_num [SCALE_LERP]) (by norm_num [SCALE_LERP])
      case PULLING =>
          exact ⟨le_max_left _ _,
            clamp_mem _ _ _ (by norm_num [MIN_SCALE, MAX_SCALE])⟩
      case GRABBED => exact ⟨hz, hs1, hs2⟩
      case FOLLOWING => exact ⟨hz, hs1, hs2⟩

/-- `goodProps` holds after any run from a state satisfying it. -/
lemma goodProps_run (inputs : List (String × Option HandData))
    (c : AppleController) (hc : goodProps c) :
    goodProps (runController c inputs) := by
  induction inputs generalizing c with
  | nil => exact hc
  | cons p rest ih =>
      obtain ⟨g, h⟩ := p
      exact ih _ (goodProps_update c g h hc)

/-- C8: starting from the default construction, every sequence of
`update` calls keeps the depth nonnegative and the scale inside
[MIN_SCALE, MAX_SCALE]. -/
theorem C8_property_bounds (inputs : List (String × Option HandData)) :
    0 ≤ (runController AppleController.init inputs).z ∧
    MIN_SCALE ≤ (runController AppleController.init inputs).scale ∧
    (runController AppleController.init inputs).scale ≤ MAX_SCALE :=
  goodProps_run inputs AppleController.init
    ⟨by norm_num [AppleController.init, DEFAULT_APPLE_Z],
     by norm_num [AppleController.init, DEFAULT_SCALE, MIN_SCALE],
     by norm_num [AppleController.init, DEFAULT_SCALE, MAX_SCALE]⟩

/-- `lerp` toward a fixed target with factor strictly between 0 and 1:
strictly closer whenever not already there, and never overshooting. -/
lemma lerp_approach (a d t : ℚ) (ht0 : 0 < t) (ht1 : t < 1) :
    (a ≠ d → |lerp a d t - d| < |a - d|) ∧
    (a ≤ d → lerp a d t ≤ d) ∧ (d ≤ a → d ≤ lerp a d t) := by
  unfold lerp
  refine ⟨fun h => ?_, fun h => by nlinarith, fun h => by nlinarith⟩
  have h1 : a + (d - a) * t - d = (a - d) * (1 - t) := by ring
  rw [h1, abs_mul, abs_of_pos (by linarith : (0 : ℚ) < 1 - t)]
  have h2 : 0 < |a - d| := abs_pos.mpr (sub_ne_zero.mpr h)
  nlinarith

/-- C9: in IDLE with gesture `"none"` and a present hand, an `update`
stays in IDLE and moves each of x, y, scale and z strictly closer to its
default whenever it is not already there, without ever overshooting. -/
theorem C9_idle_convergence (c : AppleController) (hd : HandData)
    (h : c.fsm = AppleState.IDLE) :
    (c.update "none" (some hd)).fsm = AppleState.IDLE ∧
    (c.x ≠ DEFAULT_APPLE_X →
      |(c.update "none" (some hd)).x - DEFAULT_APPLE_X| < |c.x - DEFAULT_APPLE_X|) ∧
    (c.x ≤ DEFAULT_APPLE_X → (c.update "none" (some hd)).x ≤ DEFAULT_APPLE_X) ∧
    (DEFAULT_APPLE_X ≤ c.x → DEFAULT_APPLE_X ≤ (c.update "none" (some hd)).x) ∧
    (c.y ≠ DEFAULT_APPLE_Y →
      |(c.update "none" (some hd)).y - DEFAULT_APPLE_Y| < |c.y - DEFAULT_APPLE_Y|) ∧
    (c.y ≤ DEFAULT_APPLE_Y → (c.update "none" (some hd)).y ≤ DEFAULT_APPLE_Y) ∧
    (DEFAULT_APPLE_Y ≤ c.y → DEFAULT_APPLE_Y ≤ (c.update "none" (some hd)).y) ∧
    (c.scale ≠ DEFAULT_SCALE →
      |(c.update "none" (some hd)).scale - DEFAULT_SCALE| < |c.scale - DEFAULT_SCALE|) ∧
    (c.scale ≤ DEFAULT_SCALE → (c.update "none" (some hd)).scale ≤ DEFAULT_SCALE) ∧
    (DEFAULT_SCALE ≤ c.scale → DEFAULT_SCALE ≤ (c.update "none" (some hd)).scale) ∧
    (c.z ≠ DEFAULT_APPLE_Z →
      |(c.update "none" (some hd)).z - DEFAULT_APPLE_Z| < |c.z - DEFAULT_APPLE_Z|) ∧
    (c.z ≤ DEFAULT_APPLE_Z → (c.update "none" (some hd)).z ≤ DEFAULT_APPLE_Z) ∧
    (DEFAULT_APPLE_Z ≤ c.z → DEFAULT_APPLE_Z ≤ (c.update "none" (some hd)).z) := by
  rw [update_idle_none c hd h]
  have hx := lerp_approach c.x DEFAULT_APPLE_X (POSITION_LERP * 0.5)
    (by norm_num [POSITION_LERP]) (by norm_num [POSITION_LERP])
  have hy := lerp_approach c.y DEFAULT_APPLE_Y (POSITION_LERP * 0.5)
    (by norm_num [POSITION_LERP]) (by norm_num [POSITION_LERP])
  have hs := lerp_approach c.scale DEFAULT_SCALE SCALE_LERP
    (by norm_num [SCALE_LERP]) (by norm_num [SCALE_LERP])
  have hz := lerp_approach c.z DEFAULT_APPLE_Z SCALE_LERP
    (by norm_num [SCALE_LERP]) (by norm_num [SCALE_LERP])
  exact ⟨h, hx.1, hx.2.1, hx.2.2, hy.1, hy.2.1, hy.2.2,
    hs.1, hs.2.1, hs.2.2, hz.1, hz.2.1, hz.2.2⟩

/-- Concrete IDLE controller, off its defaults, for the C9 witness. -/
def c9w : AppleController :=
  { AppleController.init with x := 0.8, y := 0.2, z := 0.5, scale := 1 }

/-- Witness for C9: at a concrete off-default IDLE controller, x really
does move strictly closer to its default. -/
theorem C9_idle_convergence_witness :
    c9w.fsm = AppleState.IDLE ∧ c9w.x ≠ DEFAULT_APPLE_X ∧
    |(c9w.update "none" (some sampleHand)).x - DEFAULT_APPLE_X| <
      |c9w.x - DEFAULT_APPLE_X| :=
  ⟨rfl, by norm_num [c9w, AppleController.init, DEFAULT_APPLE_X],
   (C9_idle_convergence c9w sampleHand rfl).2.1
     (by norm_num [c9w, AppleController.init, DEFAULT_APPLE_X])⟩

/-- Witness for C10 at the freshly initialised detector, whose remembered
label is `"none"`. -/
theorem C10_debounce_witness :
    (1 ≤ GestureDetector.init.stable_count ∨
      GestureDetector.init.last_gesture = "none") ∧
    ((GestureDetector.init.detect sampleHand).1 =
      if rawOf GestureDetector.init sampleHand = GestureDetector.init.last_gesture
        then rawOf GestureDetector.init sampleHand else "none") ∧
    ¬(1 < (GestureDetector.init.detect sampleHand).2.stable_count ∧
      (GestureDetector.init.detect sampleHand).2.stable_count < GESTURE_HYSTERESIS) ∧
    1 ≤ (GestureDetector.init.detect sampleHand).2.stable_count :=
  ⟨Or.inr rfl, C10_debounce GestureDetector.init sampleHand (Or.inr rfl)⟩

/-! Reference (spec-side) raw classification for C4, phrased the way the
claim states it, to be compared with the source-side `classify`. -/

/-- Spec-side wording: "none" if ANY of the four non-thumb fingertips has
a y-coordinate not strictly less than its base joint's. -/
def fingersNotExtendedSpec (hd : HandData) : Bool :=
  [(8, 5), (12, 9), (16, 13), (20, 17)].any fun p =>
    !decide ((hd.all_landmarks.getD p.1 default).y <
      (hd.all_landmarks.getD p.2 default).y)

/-- Spec-side wording of the pull test: at least
`PULL_FRAMES_REQUIRED + 1` buffered samples AND (every consecutive depth
delta below the negative threshold OR every consecutive width delta above
the positive threshold). -/
def isPullSpec (z_vals w_vals : List ℚ) : Bool :=
  decide (PULL_FRAMES_REQUIRED + 1 ≤ z_vals.length) &&
    ((deltas (lastN (PULL_FRAMES_REQUIRED + 1) z_vals)).all
        (fun d => decide (d < PULL_Z_DELTA_THRESHOLD)) ||
      (deltas (lastN (PULL_FRAMES_REQUIRED + 1) w_vals)).all
        (fun d => decide (PULL_W_DELTA_THRESHOLD < d)))

/-- Spec-side reference classification in the claim's priority order:
grab (strict distance test, checked first), then none on a non-extended
finger, then pull, else open_hand. -/
def classifySpec (hd : HandData) (z_vals w_vals : List ℚ) : String :=
  if decide (distSq hd.thumb_tip hd.index_tip < GRAB_THRESHOLD ^ 2) then "grab"
  else if fingersNotExtendedSpec hd then "none"
  else if isPullSpec z_vals w_vals then "pull"
  else "open_hand"

/-- The negated all-extended test agrees with the spec's any-not-extended
wording. -/
lemma not_fingers_eq (hd : HandData) :
    (!fingers_extended hd) = fingersNotExtendedSpec hd := by
  simp [fingers_extended, fingersNotExtendedSpec]

/-- The source pull test agrees with the spec-side wording. -/
lemma is_pull_eq (z_vals w_vals : List ℚ) :
    is_pull z_vals w_vals = isPullSpec z_vals w_vals := by
  unfold is_pull isPullSpec
  by_cases h : z_vals.length < PULL_FRAMES_REQUIRED + 1
  · simp [h, Nat.not_le.mpr h]
  · simp [h, Nat.not_lt.mp h]

/-- The strict-`<` comparison of the real Euclidean distance against a
positive threshold is exactly the squared comparison the embedding uses. -/
lemma distance_lt_iff (p q : ℚ × ℚ) (c : ℚ) (hc : 0 < c) :
    distance p q < (c : ℝ) ↔ distSq p q < c ^ 2 := by
  unfold distance
  rw [Real.sqrt_lt' (by exact_mod_cast hc)]
  constructor
  · intro h
    have : ((distSq p q : ℚ) : ℝ) < ((c ^ 2 : ℚ) : ℝ) := by push_cast; linarith
    exact_mod_cast this
  · intro h
    have : ((distSq p q : ℚ) : ℝ) < ((c ^ 2 : ℚ) : ℝ) := by exact_mod_cast h
    push_cast at this
    linarith

/-- C4: the raw classification equals the claim's reference definition
(grab first on strict thumb–index distance, then none on any
non-extended finger, then pull on a consistent depth-decrease OR
width-increase over the last `PULL_FRAMES_REQUIRED + 1` samples, else
open_hand), and the embedded squared grab test is exactly the strict
real-Euclidean-distance test against `GRAB_THRESHOLD`. -/
theorem C4_raw_classification :
    (∀ (hd : HandData) (z_vals w_vals : List ℚ),
      classify hd z_vals w_vals = classifySpec hd z_vals w_vals) ∧
    (∀ p q : ℚ × ℚ,
      (distance p q < ((GRAB_THRESHOLD : ℚ) : ℝ)) ↔
        distSq p q < GRAB_THRESHOLD ^ 2) := by
  constructor
  · intro hd z_vals w_vals
    unfold classify classifySpec is_grab
    rw [not_fingers_eq, is_pull_eq]
  · intro p q
    exact distance_lt_iff p q GRAB_THRESHOLD (by norm_num [GRAB_THRESHOLD])

end GestureSys
